import Mathlib

/-!
Verification of the authentication client (`src/services/authService.ts`) and
route guard (`ProtectedRoute`) of the Admin03 repository, as a shallow
embedding: the browser state touched by the service (the `admin_token` entry
of `localStorage` and the `window.location.href` redirect) is passed
explicitly, `fetch` outcomes are supplied as `Except` values (per the fetch
specification, a network-level failure rejects with a `TypeError`), and each
`async` method becomes a function from its fetch outcome and the current
browser state to a thrown-or-returned result plus the new state.
-/

namespace Admin03

/-- Server-defined admin record (`../types/admin`); its fields are opaque to
the client, so it is modelled as an abstract one-field structure. -/
structure Admin where
  id : Nat
deriving Repr, DecidableEq, Inhabited

/-- Server-defined access-profile record (`../types/profile`); opaque to the
client. -/
structure AccessProfile where
  id : Nat
deriving Repr, DecidableEq, Inhabited

/-- `interface LoginResponse { admin: Admin; token: string }`. -/
structure LoginResponse where
  admin : Admin
  token : String
deriving Repr, DecidableEq, Inhabited

/-- `interface ApiError { message: string; status?: number }`. A missing or
empty `message` is modelled as `""` (both are falsy for the `||` fallback). -/
structure ApiError where
  message : String
  status : Option Nat
deriving Repr, DecidableEq, Inhabited

/-- JavaScript exception values distinguished by the code:
`TypeError` (thrown by the `fetch` primitive on a network-level failure),
`Error` (thrown by `handleApiResponse`), and `SyntaxError` (thrown by
`response.json()` when the body is not valid JSON). -/
inductive JsError where
  | typeError (message : String)
  | error (message : String)
  | syntaxError (message : String)
deriving Repr, DecidableEq

/-- A network-level failure of the `fetch` primitive: per the fetch
specification it rejects with a `TypeError` carrying an
environment-determined message. -/
structure NetworkError where
  message : String
deriving Repr, DecidableEq

/-- An HTTP response as the code observes it: its status, whether
`response.json()` resolves, the parsed body read as the error shape
(meaningful only when `jsonParses`), the message of the `SyntaxError` that
`response.json()` would throw (meaningful only when `¬jsonParses`), and the
parsed body read as the operation's success shape `α`. -/
structure Response (α : Type) where
  status : Nat
  jsonParses : Bool
  errBody : ApiError
  parseErrMsg : String
  body : α

/-- `response.ok`: true exactly when the status is in the range 200–299. -/
def Response.isOk {α : Type} (r : Response α) : Bool :=
  decide (200 ≤ r.status) && decide (r.status < 300)

/-- Browser state owned by the client: the `admin_token` entry of
`localStorage` (`none` when absent) and the value assigned to
`window.location.href` (`none` when no redirect happened). -/
structure AuthState where
  token : Option String
  redirect : Option String
deriving Repr, DecidableEq

/-- `clearAuthData()`: `localStorage.removeItem('admin_token')`. -/
def clearAuthData (s : AuthState) : AuthState :=
  { s with token := none }

/-- `getErrorMessageByStatus(status)`: the fixed status→message table
(the `switch` is an equality chain). -/
def getErrorMessageByStatus (status : Nat) : String :=
  if status = 400 then "Dados inválidos enviados para o servidor"
  else if status = 401 then "Credenciais inválidas ou sessão expirada"
  else if status = 403 then "Acesso negado"
  else if status = 404 then "Serviço não encontrado. Verifique se o servidor está rodando"
  else if status = 500 then "Erro interno do servidor"
  else if status = 502 then "Servidor indisponível"
  else if status = 503 then "Serviço temporariamente indisponível"
  else "Erro de comunicação com o servidor"

/-- `handleApiResponse(response)`: on a non-ok response, resolve an
`ApiError` (parsing the JSON body, or synthesizing from the table when the
parse throws), clear the token and redirect to the login route when the
status is 401 or 403, and throw `error.message || generic`. On an ok
response, return it unchanged. The returned state carries the side effects
that have occurred by the time the error is thrown. -/
def handleApiResponse {α : Type} (response : Response α) (s : AuthState) :
    (Except JsError Unit) × AuthState :=
  if response.isOk then (.ok (), s)
  else
    let error : ApiError :=
      if response.jsonParses then response.errBody
      else { message := getErrorMessageByStatus response.status,
             status := some response.status }
    let s' : AuthState :=
      if response.status = 401 ∨ response.status = 403 then
        { clearAuthData s with redirect := some "/Admin/login" }
      else s
    (.error (.error (if error.message = "" then
        "Erro de comunicação com o servidor" else error.message)), s')

/-- Whether an `Except`-modelled call ended in a thrown exception. -/
def isThrown {ε α : Type} : Except ε α → Bool
  | .error _ => true
  | .ok _ => false

/-- Whether `needle` occurs at the start of `hay` (character lists). -/
def charsStartWith : List Char → List Char → Bool
  | [], _ => true
  | _ :: _, [] => false
  | c :: cs, d :: ds => (c = d) && charsStartWith cs ds

/-- Whether `needle` occurs anywhere inside `hay` (character lists). -/
def charsContain (hay needle : List Char) : Bool :=
  match hay with
  | [] => charsStartWith needle []
  | _ :: rest => charsStartWith needle hay || charsContain rest needle

/-- JavaScript `s.includes(sub)`. -/
def jsIncludes (s sub : String) : Bool :=
  charsContain s.data sub.data

/-- The fixed connectivity message thrown by `login` when the fetch
primitive itself failed. -/
def connectivityMessage : String :=
  "Não foi possível conectar ao servidor. Verifique sua conexão e se o servidor está rodando."

/-- `login(email, senha)`: POST `/auth/login`; run `handleApiResponse`; on
success parse the body. The surrounding `catch` re-throws a `TypeError`
whose message contains "fetch" (a network-level fetch failure) as an
`Error` with the fixed connectivity message, and re-throws every other
exception unchanged. `fetchResult` is the outcome of the `fetch` call. -/
def login (email senha : String)
    (fetchResult : Except NetworkError (Response LoginResponse))
    (s : AuthState) : (Except JsError LoginResponse) × AuthState :=
  let tryResult : (Except JsError LoginResponse) × AuthState :=
    match fetchResult with
    | .error e => (.error (.typeError e.message), s)
    | .ok r =>
      match handleApiResponse r s with
      | (.error err, s') => (.error err, s')
      | (.ok _, s') =>
        if r.jsonParses then (.ok r.body, s')
        else (.error (.syntaxError r.parseErrMsg), s')
  match tryResult with
  | (.ok v, s') => (.ok v, s')
  | (.error err, s') =>
    match err with
    | .typeError m =>
      if jsIncludes m "fetch" then (.error (.error connectivityMessage), s')
      else (.error (.typeError m), s')
    | e => (.error e, s')

/-- `validateToken(token)`: GET `/auth/validate` with a bearer header; run
`handleApiResponse`; on success parse the body. The surrounding `catch`
clears the stored token and re-throws on every exception. -/
def validateToken (token : String)
    (fetchResult : Except NetworkError (Response Admin))
    (s : AuthState) : (Except JsError Admin) × AuthState :=
  let tryResult : (Except JsError Admin) × AuthState :=
    match fetchResult with
    | .error e => (.error (.typeError e.message), s)
    | .ok r =>
      match handleApiResponse r s with
      | (.error err, s') => (.error err, s')
      | (.ok _, s') =>
        if r.jsonParses then (.ok r.body, s')
        else (.error (.syntaxError r.parseErrMsg), s')
  match tryResult with
  | (.ok v, s') => (.ok v, s')
  | (.error err, s') => (.error err, clearAuthData s')

/-- Observable steps of `logout()`, in execution order: the best-effort
POST `/auth/logout` (with the bearer token it carries) and the
`localStorage.removeItem` performed by `clearAuthData`. -/
inductive LogoutEvent where
  | fetchLogout (token : String)
  | removeToken
deriving Repr, DecidableEq

/-- `logout()`: read the stored token; if it is truthy (present and
non-empty), POST `/auth/logout` best-effort — the response is discarded and
a thrown error is only logged — then always clear the stored token. The
returned trace records the order of the side effects; `fetchResult` is the
outcome of the `fetch` call (unused because both outcomes fall through to
`clearAuthData`). -/
def logout (fetchResult : Except NetworkError Unit) (s : AuthState) :
    AuthState × List LogoutEvent :=
  match s.token with
  | some token =>
    if token = "" then (clearAuthData s, [.removeToken])
    else
      match fetchResult with
      | _ => (clearAuthData s, [.fetchLogout token, .removeToken])
  | none => (clearAuthData s, [.removeToken])

/-- JavaScript template-literal rendering of `localStorage.getItem`'s
result: a string interpolates as itself, `null` interpolates as `"null"`. -/
def jsTemplateToken : Option String → String
  | some t => t
  | none => "null"

/-- The request `getProfile` issues: its URL and its `Authorization`
header. -/
structure ProfileRequest where
  url : String
  authorization : String
deriving Repr, DecidableEq

/-- `getProfile(profileId)`: read the stored token, GET
`/profiles/{profileId}` with header `Bearer ${token}` (issued
unconditionally, before any failure can occur), run `handleApiResponse`,
and on success parse the body; the `catch` re-throws unchanged. Returns
the issued request alongside the outcome. -/
def getProfile (baseURL : String) (profileId : Nat)
    (fetchResult : Except NetworkError (Response AccessProfile))
    (s : AuthState) :
    ProfileRequest × (Except JsError AccessProfile) × AuthState :=
  let token : Option String := s.token
  let request : ProfileRequest :=
    { url := baseURL ++ "/profiles/" ++ toString profileId,
      authorization := "Bearer " ++ jsTemplateToken token }
  let result : (Except JsError AccessProfile) × AuthState :=
    match fetchResult with
    | .error e => (.error (.typeError e.message), s)
    | .ok r =>
      match handleApiResponse r s with
      | (.error err, s') => (.error err, s')
      | (.ok _, s') =>
        if r.jsonParses then (.ok r.body, s')
        else (.error (.syntaxError r.parseErrMsg), s')
  (request, result)

/-- `checkServerHealth()`: GET `/health`; return `response.ok`, and `false`
when the `fetch` call throws. Total by construction — it never throws. -/
def checkServerHealth (fetchResult : Except NetworkError (Response Unit)) :
    Bool :=
  match fetchResult with
  | .ok response => response.isOk
  | .error _ => false

/-- What one render of `ProtectedRoute` produces: the loading spinner, a
`<Navigate to replace>` redirect, or the guarded children. -/
inductive Rendered (α : Type) where
  | loadingSpinner
  | navigate (dest : String) (replace : Bool)
  | children (c : α)
deriving Repr, DecidableEq

/-- The render body of `ProtectedRoute`: `loading` → spinner; else
`serverError` → `<Navigate to="/login" replace />`; else unauthenticated →
the same redirect; else the children. -/
def protectedRouteRender {α : Type} (loading isAuthenticated serverError : Bool)
    (children : α) : Rendered α :=
  if loading then .loadingSpinner
  else if serverError then .navigate "/login" true
  else if !isAuthenticated then .navigate "/login" true
  else .children children

/-- The guard inside `ProtectedRoute`'s `useEffect` body: the session-expired
warning is added exactly when `!loading && !isAuthenticated && !serverError`
and the current path is not already `/login`. -/
def sessionExpiredCheck (loading isAuthenticated serverError : Bool)
    (pathname : String) : Bool :=
  !loading && !isAuthenticated && !serverError && pathname ≠ "/login"

/-- The inputs `ProtectedRoute` reads on one render, which are also the
reactive dependencies of its `useEffect` (the `addNotification` dependency
is a stable context function and is not part of the data model). -/
structure GuardInput where
  loading : Bool
  isAuthenticated : Bool
  serverError : Bool
  pathname : String
deriving Repr, DecidableEq

/-- Whether the input is in the unauthenticated state named by the spec:
`loading` false, `isAuthenticated` false, `serverError` false. -/
def unauthState (i : GuardInput) : Bool :=
  !i.loading && !i.isAuthenticated && !i.serverError

/-- React `useEffect` semantics over a sequence of renders: the effect body
runs after the first render and after every render whose dependencies
differ from the previous render's; when it runs, it emits a warning
notification exactly when `sessionExpiredCheck` holds. `prev` is the
dependency tuple of the render before the sequence (`none` before the first
ever render). Returns the number of warnings emitted. -/
def notifyCount : Option GuardInput → List GuardInput → Nat
  | _, [] => 0
  | prev, i :: rest =>
    let fires : Bool :=
      match prev with
      | none => true
      | some p => p ≠ i
    let emits : Bool :=
      fires && sessionExpiredCheck i.loading i.isAuthenticated i.serverError i.pathname
    (if emits then 1 else 0) + notifyCount (some i) rest

/-- The number of transitions into the unauthenticated state along a render
sequence: renders that are in the unauthenticated state while the previous
render (or the state before the first render) was not. -/
def transitionsIntoUnauth : Option GuardInput → List GuardInput → Nat
  | _, [] => 0
  | prev, i :: rest =>
    let entered : Bool :=
      unauthState i &&
        (match prev with
         | none => true
         | some p => !unauthState p)
    (if entered then 1 else 0) + transitionsIntoUnauth (some i) rest

/-! ## Theorems -/

/-- The status→message table never yields the empty string, so the
`error.message || generic` fallback keeps the table entry. -/
theorem getErrorMessageByStatus_ne_empty (status : Nat) :
    getErrorMessageByStatus status ≠ "" := by
  unfold getErrorMessageByStatus
  split_ifs <;> decide

/-- C1: for every response whose status is 401 or 403 — whether or not its
error body parses — `handleApiResponse` leaves the token storage empty and
the redirect to the login route recorded in the state returned alongside
the thrown error, so both side effects have happened by the time the error
reaches the caller. -/
theorem handleApiResponse_unauthorized_clears_and_redirects
    {α : Type} (r : Response α) (s : AuthState)
    (h : r.status = 401 ∨ r.status = 403) :
    (handleApiResponse r s).2 =
      { token := none, redirect := some "/Admin/login" } ∧
    isThrown (handleApiResponse r s).1 = true := by
  have hok : r.isOk = false := by
    unfold Response.isOk
    rcases h with h | h <;> simp [h]
  constructor <;> simp [handleApiResponse, hok, h, clearAuthData, isThrown]

theorem handleApiResponse_unauthorized_clears_and_redirects_witness :
    (handleApiResponse (⟨401, false, ⟨"", none⟩, "", ()⟩ : Response Unit)
        ⟨some "tok", none⟩).2 =
      { token := none, redirect := some "/Admin/login" } ∧
    isThrown (handleApiResponse (⟨401, false, ⟨"", none⟩, "", ()⟩ : Response Unit)
        ⟨some "tok", none⟩).1 = true :=
  handleApiResponse_unauthorized_clears_and_redirects _ _ (Or.inl rfl)

/-- C9: for every response whose status is neither 401 nor 403 — successful
or failing, parsable or not — `handleApiResponse` leaves the stored token
unchanged. -/
theorem handleApiResponse_preserves_token_otherwise
    {α : Type} (r : Response α) (s : AuthState)
    (h401 : r.status ≠ 401) (h403 : r.status ≠ 403) :
    (handleApiResponse r s).2.token = s.token := by
  unfold handleApiResponse
  split
  · rfl
  · simp [h401, h403]

theorem handleApiResponse_preserves_token_otherwise_witness :
    (handleApiResponse
        (⟨404, true, ⟨"Not found", some 404⟩, "", ()⟩ : Response Unit)
        ⟨some "tok", none⟩).2.token = some "tok" :=
  handleApiResponse_preserves_token_otherwise _ _ (by decide) (by decide)

/-- C5: for every failing response whose body does not parse as JSON, the
thrown message is exactly the fixed table entry for its status; the table
maps 400, 401, 403, 404, 500, 502 and 503 to their specific messages and
every other status (`st`) to the generic communication-error message. -/
theorem unparsable_error_body_uses_status_table
    {α : Type} (r : Response α) (s : AuthState) (st : Nat)
    (hok : r.isOk = false) (hp : r.jsonParses = false)
    (h400 : st ≠ 400) (h401 : st ≠ 401) (h403 : st ≠ 403) (h404 : st ≠ 404)
    (h500 : st ≠ 500) (h502 : st ≠ 502) (h503 : st ≠ 503) :
    (handleApiResponse r s).1 =
      .error (.error (getErrorMessageByStatus r.status)) ∧
    getErrorMessageByStatus 400 = "Dados inválidos enviados para o servidor" ∧
    getErrorMessageByStatus 401 = "Credenciais inválidas ou sessão expirada" ∧
    getErrorMessageByStatus 403 = "Acesso negado" ∧
    getErrorMessageByStatus 404 =
      "Serviço não encontrado. Verifique se o servidor está rodando" ∧
    getErrorMessageByStatus 500 = "Erro interno do servidor" ∧
    getErrorMessageByStatus 502 = "Servidor indisponível" ∧
    getErrorMessageByStatus 503 = "Serviço temporariamente indisponível" ∧
    getErrorMessageByStatus st = "Erro de comunicação com o servidor" := by
  refine ⟨?_, by decide, by decide, by decide, by decide, by decide,
    by decide, by decide, ?_⟩
  · simp [handleApiResponse, hok, hp, getErrorMessageByStatus_ne_empty r.status]
  · unfold getErrorMessageByStatus
    simp [h400, h401, h403, h404, h500, h502, h503]

theorem unparsable_error_body_uses_status_table_witness :
    (handleApiResponse (⟨404, false, ⟨"", none⟩, "", ()⟩ : Response Unit)
        ⟨some "tok", none⟩).1 =
      .error (.error (getErrorMessageByStatus 404)) ∧
    getErrorMessageByStatus 400 = "Dados inválidos enviados para o servidor" ∧
    getErrorMessageByStatus 401 = "Credenciais inválidas ou sessão expirada" ∧
    getErrorMessageByStatus 403 = "Acesso negado" ∧
    getErrorMessageByStatus 404 =
      "Serviço não encontrado. Verifique se o servidor está rodando" ∧
    getErrorMessageByStatus 500 = "Erro interno do servidor" ∧
    getErrorMessageByStatus 502 = "Servidor indisponível" ∧
    getErrorMessageByStatus 503 = "Serviço temporariamente indisponível" ∧
    getErrorMessageByStatus 418 = "Erro de comunicação com o servidor" :=
  unparsable_error_body_uses_status_table _ _ 418 (by decide) rfl
    (by decide) (by decide) (by decide) (by decide) (by decide) (by decide)
    (by decide)

/-- C2: `checkServerHealth` is a total function (it never throws) and it
returns `true` exactly when the fetch yielded a response whose status is in
the 2xx range; every non-2xx response and every network-level failure
yields `false`. -/
theorem checkServerHealth_true_iff
    (fetchResult : Except NetworkError (Response Unit)) :
    checkServerHealth fetchResult = true ↔
      ∃ r, fetchResult = .ok r ∧ 200 ≤ r.status ∧ r.status < 300 := by
  cases fetchResult with
  | error e => simp [checkServerHealth]
  | ok r =>
    simp [checkServerHealth, Response.isOk]

/-- C3: every execution of `logout` — no stored token, empty stored token,
successful network call or throwing network call — ends with the token
storage empty, and its side-effect trace is either the deletion alone or
the best-effort logout request followed by the deletion: the deletion
happens-after the network attempt. -/
theorem logout_clears_token_after_fetch_attempt
    (fetchResult : Except NetworkError Unit) (s : AuthState) :
    (logout fetchResult s).1.token = none ∧
    ((logout fetchResult s).2 = [LogoutEvent.removeToken] ∨
      ∃ t, (logout fetchResult s).2 =
        [LogoutEvent.fetchLogout t, LogoutEvent.removeToken]) := by
  unfold logout
  cases htok : s.token with
  | none => simp [clearAuthData]
  | some t =>
    by_cases ht : t = "" <;> cases fetchResult <;> simp [ht, clearAuthData]

/-- C4: on every failure path of `validateToken` — a network-level error or
an HTTP error response (and also a success body that fails to parse) — the
stored token is deleted in the state returned alongside the propagated
error. -/
theorem validateToken_clears_token_on_failure
    (token : String) (fetchResult : Except NetworkError (Response Admin))
    (s : AuthState)
    (h : isThrown (validateToken token fetchResult s).1 = true) :
    (validateToken token fetchResult s).2.token = none := by
  cases fetchResult with
  | error e => simp [validateToken, clearAuthData]
  | ok r =>
    rcases hh : handleApiResponse r s with ⟨res, s'⟩
    cases res with
    | error err => simp [validateToken, hh, clearAuthData]
    | ok u =>
      by_cases hp : r.jsonParses
      · simp [validateToken, hh, hp, isThrown] at h
      · simp [validateToken, hh, hp, clearAuthData]

theorem validateToken_clears_token_on_failure_witness :
    (validateToken "tok" (.error ⟨"Failed to fetch"⟩)
        ⟨some "tok", none⟩).2.token = none :=
  validateToken_clears_token_on_failure _ _ _ (by decide)

/-- C6, counterexample: a network-level fetch failure whose `TypeError`
message does not contain the substring "fetch" (Safari rejects with
"Load failed") fails the `error instanceof TypeError &&
error.message.includes('fetch')` test, so `login` re-throws the raw
underlying error instead of the fixed connectivity message. -/
theorem login_network_error_surfaces_raw_message :
    (login "admin@example.com" "secret" (.error ⟨"Load failed"⟩)
        ⟨none, none⟩).1 = .error (.typeError "Load failed") ∧
    (login "admin@example.com" "secret" (.error ⟨"Load failed"⟩)
        ⟨none, none⟩).1 ≠ .error (.error connectivityMessage) := by
  refine ⟨rfl, ?_⟩
  rw [show (login "admin@example.com" "secret" (.error ⟨"Load failed"⟩)
      (⟨none, none⟩ : AuthState)).1 = .error (.typeError "Load failed")
    from rfl]
  simp

/-- C6, amended: a network-level failure of `login` whose `TypeError`
message contains the substring "fetch" surfaces the fixed connectivity
message, while a network-level failure without that substring is re-thrown
with its raw message. -/
theorem login_network_error_messages
    (email senha : String) (e₁ e₂ : NetworkError) (s₁ s₂ : AuthState)
    (h₁ : jsIncludes e₁.message "fetch" = true)
    (h₂ : jsIncludes e₂.message "fetch" = false) :
    (login email senha (.error e₁) s₁).1 =
      .error (.error connectivityMessage) ∧
    (login email senha (.error e₂) s₂).1 =
      .error (.typeError e₂.message) := by
  constructor <;> simp [login, h₁, h₂]

theorem login_network_error_messages_witness :
    (login "admin@example.com" "secret" (.error ⟨"Failed to fetch"⟩)
        ⟨none, none⟩).1 = .error (.error connectivityMessage) ∧
    (login "admin@example.com" "secret" (.error ⟨"Load failed"⟩)
        ⟨some "tok", none⟩).1 = .error (.typeError "Load failed") :=
  login_network_error_messages _ _ ⟨"Failed to fetch"⟩ ⟨"Load failed"⟩ _ _
    (by decide) (by decide)

/-- C7: `ProtectedRoute` renders as the four ordered states prescribe, for
every combination of the inputs: loading renders only the spinner (and the
session-expired check is off); not loading with a server error redirects to
the login route (so the children are not rendered); not loading, no server
error, unauthenticated redirects to the login route; not loading, no server
error (the earlier guard having not matched), authenticated renders the
guarded children with no redirect and the session-expired check off. -/
theorem protectedRoute_state_machine
    {α : Type} (isAuthenticated serverError : Bool) (pathname : String)
    (children : α) :
    (protectedRouteRender true isAuthenticated serverError children =
        .loadingSpinner ∧
      sessionExpiredCheck true isAuthenticated serverError pathname = false) ∧
    protectedRouteRender false isAuthenticated true children =
      .navigate "/login" true ∧
    protectedRouteRender false false false children =
      .navigate "/login" true ∧
    (protectedRouteRender false true false children = .children children ∧
      sessionExpiredCheck false true false pathname = false) :=
  ⟨⟨rfl, rfl⟩, rfl, rfl, rfl, rfl⟩

/-- C8, counterexample: two consecutive renders that both sit in the
unauthenticated state (loading false, isAuthenticated false, serverError
false) but at different pathnames make the effect re-fire — the pathname is
one of its reactive dependencies — so the warning is emitted twice during a
single transition into the unauthenticated state. -/
theorem session_warning_repeats_within_one_unauth_visit :
    notifyCount none
      [⟨false, false, false, "/dashboard"⟩,
       ⟨false, false, false, "/settings"⟩] = 2 ∧
    transitionsIntoUnauth none
      [⟨false, false, false, "/dashboard"⟩,
       ⟨false, false, false, "/settings"⟩] = 1 := by
  decide

/-- C8, amended: the session-expired warning fires at most once per change
of the effect's reactive dependencies, not on every render — a re-render
with unchanged inputs emits nothing — and a render on which the
session-expired check is off (authenticated, loading, server error, or
already at the login route) emits nothing; but a dependency change such as
a pathname change while remaining unauthenticated fires it again. -/
theorem session_warning_once_per_dependency_change
    (prev : Option GuardInput) (i j : GuardInput)
    (rest₁ rest₂ : List GuardInput)
    (hj : sessionExpiredCheck j.loading j.isAuthenticated j.serverError
        j.pathname = false) :
    notifyCount (some i) (i :: rest₁) = notifyCount (some i) rest₁ ∧
    notifyCount prev (j :: rest₂) = notifyCount (some j) rest₂ := by
  constructor
  · simp [notifyCount]
  · cases prev <;> simp [notifyCount, hj]

theorem session_warning_once_per_dependency_change_witness :
    notifyCount (some ⟨false, false, false, "/dashboard"⟩)
        [⟨false, false, false, "/dashboard"⟩] =
      notifyCount (some ⟨false, false, false, "/dashboard"⟩) [] ∧
    notifyCount none [⟨true, false, false, "/dashboard"⟩] =
      notifyCount (some ⟨true, false, false, "/dashboard"⟩) [] :=
  session_warning_once_per_dependency_change none _ _ [] [] (by decide)

/-- C10: when no token is in storage, `getProfile` still issues the request
— the request record is produced unconditionally, before the fetch outcome
matters — and its Authorization header is the literal string "Bearer null",
the JS template-literal rendering of `localStorage.getItem`'s `null`. -/
theorem getProfile_sends_bearer_null_without_token
    (baseURL : String) (profileId : Nat)
    (fetchResult : Except NetworkError (Response AccessProfile))
    (s : AuthState) (h : s.token = none) :
    (getProfile baseURL profileId fetchResult s).1.authorization =
      "Bearer null" ∧
    (getProfile baseURL profileId fetchResult s).1.url =
      baseURL ++ "/profiles/" ++ toString profileId := by
  constructor
  · simp [getProfile, h, jsTemplateToken]
  · rfl

theorem getProfile_sends_bearer_null_without_token_witness :
    (getProfile "/Admin/api" 7 (.error ⟨"Failed to fetch"⟩)
        ⟨none, none⟩).1.authorization = "Bearer null" ∧
    (getProfile "/Admin/api" 7 (.error ⟨"Failed to fetch"⟩)
        ⟨none, none⟩).1.url = "/Admin/api" ++ "/profiles/" ++ toString 7 :=
  getProfile_sends_bearer_null_without_token _ _ _ _ rfl

end Admin03

